import Mathlib

/-!
Verification of the conversation / message-dispatch state engine of the
CloudExtelGPT frontend: the `AppProvider` context (conversation store,
message log, dispatch protocol) and the chat page's attachment staging,
shallow-embedded in Lean.

Modelling conventions:
* JS strings are Lean `String`s; `trim`, `slice(0, n)` and `startsWith` are
  embedded as `jsTrim`, `jsSlice` and `jsStartsWith` over the character list.
* `Date.now()` timestamps are supplied as a `Nat` parameter `now`; the
  source's `Date.now().toString()` identifiers become `toString now`.
* Object URLs returned by `URL.createObjectURL` are opaque resource tokens,
  modelled as `Nat`s drawn from a fresh counter; `URL.revokeObjectURL`
  removes the token from the ledger of live resources.
* React `useState` state lives in explicit records (`AppState`,
  `StageState`); a `setX(prev => f prev)` functional update applies `f` to
  the current field value, a `setX(v)` update overwrites the field.
* The `async` suspension inside `sendMessage` is modelled by splitting it
  into its synchronous prefix (`sendStartCore`) and its two continuations
  (`sendSettle` on a 2xx response, `sendFail` on any error); the
  `useCallback` closure values of `currentConversation` and
  `messages.length` captured when the callback was created are the explicit
  parameters `cc0` and `ml0` of the success continuation.
-/

namespace CloudExtelGPT

/-- JS `String.prototype.trim`: strip leading and trailing whitespace. -/
def jsTrim (s : String) : String :=
  ⟨((s.data.dropWhile Char.isWhitespace).reverse.dropWhile
      Char.isWhitespace).reverse⟩

/-- JS `str.slice(0, n)`: the first `n` characters. -/
def jsSlice (s : String) (n : Nat) : String := ⟨s.data.take n⟩

/-- JS `a || b` where `a` is a possibly-absent string field: the left operand
unless it is absent or empty (both falsy), else the right one. -/
def jsOr (a : Option String) (b : String) : String :=
  match a with
  | some s => if s = "" then b else s
  | none => b

/-- JS `String.prototype.startsWith`. -/
def jsStartsWith (p s : String) : Bool := p.data.isPrefixOf s.data

/-- A conversation record of the store: `{ id, title, createdAt }`. -/
structure Conversation where
  id : String
  title : String
  createdAt : Nat
deriving DecidableEq

/-- The UI-safe projection of an attachment recorded on a message:
`{ name, size, type, preview }`. -/
structure AttachmentSummary where
  name : String
  size : Nat
  type : String
  preview : Option Nat
deriving DecidableEq

/-- A staged attachment, as built by `handleFileSelect`:
`{ id, file, name, size, type, preview }`. The raw `file` handle is only
forwarded opaquely into the outbound form data, so it carries no structure
used by the state engine and is omitted. -/
structure StagedFile where
  id : Nat
  name : String
  size : Nat
  type : String
  preview : Option Nat
deriving DecidableEq

/-- One turn of the transcript. -/
structure Message where
  id : String
  role : String
  content : String
  timestamp : Nat
  files : List AttachmentSummary
  error : Bool
deriving DecidableEq

/-- The `AppProvider` state. -/
structure AppState where
  conversations : List Conversation
  currentConversation : Option Conversation
  messages : List Message
  isLoading : Bool
  sidebarOpen : Bool
deriving DecidableEq

/-- Success payload of `POST /api/chat/message` (`response.data`); every
field may be absent. -/
structure ServerResponse where
  response : Option String
  message : Option String
  conversation_id : Option String
deriving DecidableEq

/-- `createNewConversation` of `AppContext`; `now` stands for `Date.now()`.
The JS function body ends without a `return` statement, so the call
evaluates to `undefined`, modelled by the constant `none` second
component. -/
def createNewConversation (now : Nat) (st : AppState) :
    AppState × Option String :=
  let newConversation : Conversation :=
    { id := toString now, title := "New Chat", createdAt := now }
  ({ st with
      conversations := newConversation :: st.conversations,
      currentConversation := some newConversation,
      messages := [] },
    none)

/-- `selectConversation` of `AppContext`: look the id up with `Array.find`;
if present make it current and reset the message log to `[]`. -/
def selectConversation (conversationId : String) (st : AppState) : AppState :=
  match st.conversations.find? (fun c => c.id == conversationId) with
  | some conversation =>
      { st with currentConversation := some conversation, messages := [] }
  | none => st

/-- `deleteConversation` of `AppContext`. -/
def deleteConversation (conversationId : String) (st : AppState) : AppState :=
  let conversations' := st.conversations.filter (fun c => c.id != conversationId)
  match st.currentConversation with
  | some c =>
      if c.id == conversationId then
        { st with conversations := conversations',
                  currentConversation := none, messages := [] }
      else { st with conversations := conversations' }
  | none => { st with conversations := conversations' }

/-- `renameConversation` of `AppContext`: early return when the trimmed
title is empty, otherwise write the trimmed title into the store entry and,
when the current conversation has that id, into the current-conversation
copy as well. -/
def renameConversation (conversationId : String) (newTitle : String)
    (st : AppState) : AppState :=
  if jsTrim newTitle = "" then st
  else
    { st with
      conversations := st.conversations.map fun c =>
        if c.id == conversationId then { c with title := jsTrim newTitle }
        else c,
      currentConversation :=
        match st.currentConversation with
        | some c =>
            if c.id == conversationId then
              some { c with title := jsTrim newTitle }
            else some c
        | none => none }

/-- `clearCurrentConversation` of `AppContext`. -/
def clearCurrentConversation (st : AppState) : AppState :=
  { st with currentConversation := none, messages := [] }

/-- Content of the optimistic user message. The conditional mirrors the
source expression `content.trim() || files.length > 0 ? ... : ''` with JS
operator precedence, under which the ternary's condition is the whole
disjunction. -/
def userMessageContent (content : String) (files : List StagedFile) : String :=
  if jsTrim content ≠ "" ∨ 0 < files.length then
    "Sent " ++ toString files.length ++ " file(s)"
  else ""

/-- The attachment summary placed on the user message:
`{ name, size, type, preview }` projected off a staged file. -/
def toSummary (f : StagedFile) : AttachmentSummary :=
  { name := f.name, size := f.size, type := f.type, preview := f.preview }

/-- Synchronous prefix of `sendMessage`, run after the empty-send guard and
before the request is issued: append the optimistic user message and raise
the loading flag. -/
def sendStartCore (now : Nat) (content : String) (files : List StagedFile)
    (st : AppState) : AppState :=
  let userMessage : Message :=
    { id := toString now, role := "user",
      content := userMessageContent content files, timestamp := now,
      files := files.map toSummary, error := false }
  { st with messages := st.messages ++ [userMessage], isLoading := true }

/-- The title derivation `content.trim().slice(0, 50) || ...` shared by the
title-assignment and conversation-creation branches of `sendMessage`. -/
def deriveTitle (content : String) (fileCount : Nat) : String :=
  let t := jsSlice (jsTrim content) 50
  if t = "" then "Chat with " ++ toString fileCount ++ " file(s)" else t

/-- The functional update `setCurrentConversation(prev => ({ ...prev,
title: newTitle }))`: it retitles whatever conversation is current at the
moment it runs. When `prev` is `null`, the JS spread yields an object
carrying only `title`; the then-missing fields are modelled by the defaults
`""` and `0`. -/
def updateCurrentTitle (cur : Option Conversation) (newTitle : String) :
    Option Conversation :=
  match cur with
  | some c => some { c with title := newTitle }
  | none => some { id := "", title := newTitle, createdAt := 0 }

/-- Success continuation of `sendMessage`, applied to the state `st` live at
response arrival. `cc0` and `ml0` are the `currentConversation` and
`messages.length` closure values captured when the callback was created
(its `useCallback` dependencies), which the two `if` guards consult. -/
def sendSettle (now : Nat) (cc0 : Option Conversation) (ml0 : Nat)
    (content : String) (files : List StagedFile) (resp : ServerResponse)
    (st : AppState) : AppState :=
  let assistantMessage : Message :=
    { id := toString (now + 1), role := "assistant",
      content := jsOr resp.response (jsOr resp.message "No response received"),
      timestamp := now, files := [], error := false }
  let st1 := { st with messages := st.messages ++ [assistantMessage] }
  let st2 :=
    match cc0 with
    | some c0 =>
        if c0.title = "New Chat" ∧ ml0 = 0 then
          let newTitle := deriveTitle content files.length
          { st1 with
            currentConversation :=
              updateCurrentTitle st1.currentConversation newTitle,
            conversations := st1.conversations.map fun (c : Conversation) =>
              if c.id == c0.id then { c with title := newTitle } else c }
        else st1
    | none => st1
  let st3 :=
    match cc0 with
    | none =>
        let newConversation : Conversation :=
          { id := jsOr resp.conversation_id (toString now),
            title := deriveTitle content files.length,
            createdAt := now }
        { st2 with
          currentConversation := some newConversation,
          conversations := newConversation :: st2.conversations }
    | some _ => st2
  { st3 with isLoading := false }

/-- Failure continuation of `sendMessage` (the `catch` and `finally`
blocks), applied to the state live when the request fails: append the fixed
apology as an error-flagged assistant message and drop the loading flag. -/
def sendFail (now : Nat) (st : AppState) : AppState :=
  let errorMessage : Message :=
    { id := toString (now + 1), role := "assistant",
      content := "Sorry, I encountered an error. Please try again.",
      timestamp := now, files := [], error := true }
  { st with messages := st.messages ++ [errorMessage], isLoading := false }

/-- A complete, uninterrupted successful `sendMessage`: no other operation
runs between request issuance and response arrival, so the captured closure
values `cc0` and `ml0` coincide with the pre-send state. -/
def sendMessageOk (now : Nat) (content : String) (files : List StagedFile)
    (resp : ServerResponse) (st : AppState) : AppState :=
  if jsTrim content = "" ∧ files.length = 0 then st
  else
    sendSettle now st.currentConversation st.messages.length content files
      resp (sendStartCore now content files st)

/-- A complete, uninterrupted failing `sendMessage`. -/
def sendMessageErr (now : Nat) (content : String) (files : List StagedFile)
    (st : AppState) : AppState :=
  if jsTrim content = "" ∧ files.length = 0 then st
  else sendFail now (sendStartCore now content files st)

/-- A file coming out of the file-picker event (`e.target.files`). -/
structure SelectedFile where
  name : String
  size : Nat
  type : String
deriving DecidableEq

/-- `file.type.startsWith('image/')`. -/
def isImageType (t : String) : Bool := jsStartsWith "image/" t

/-- The 10 MiB staging limit of `handleFileSelect`. -/
def maxFileSize : Nat := 10 * 1024 * 1024

/-- State of the attachment stage of the chat page: the `attachedFiles`
array, the ledger of live object-URL tokens, and the counter feeding fresh
ids and URL tokens. -/
structure StageState where
  attached : List StagedFile
  live : List Nat
  fresh : Nat
deriving DecidableEq

/-- Stage one already-validated file: assign a fresh id and, for an image
media type, allocate a preview resource (`URL.createObjectURL`); no
resource is allocated for other types. -/
def stageOne (st : StageState) (f : SelectedFile) : StageState :=
  let preview : Option Nat := if isImageType f.type then some st.fresh else none
  { attached := st.attached ++
      [{ id := st.fresh, name := f.name, size := f.size, type := f.type,
         preview := preview }],
    live :=
      match preview with
      | some u => st.live ++ [u]
      | none => st.live,
    fresh := st.fresh + 1 }

/-- `handleFileSelect` of the chat page: drop oversize files (surfacing an
alert), then stage the remaining ones in their original order. -/
def handleFileSelect (st : StageState) (files : List SelectedFile) :
    StageState :=
  (files.filter fun f => if f.size > maxFileSize then false else true).foldl
    stageOne st

/-- `removeFile` of the chat page: if the id is staged and the entry owns a
preview resource, revoke it (`URL.revokeObjectURL`), then drop the entry. -/
def removeFile (st : StageState) (fileId : Nat) : StageState :=
  let live' :=
    match st.attached.find? (fun f => f.id == fileId) with
    | some fileToRemove =>
        match fileToRemove.preview with
        | some u => st.live.erase u
        | none => st.live
    | none => st.live
  { st with
    attached := st.attached.filter (fun f => f.id != fileId),
    live := live' }

/-- One user interaction with the attachment stage. -/
inductive StageOp where
  | select (files : List SelectedFile)
  | remove (fileId : Nat)

/-- Apply one stage interaction. -/
def stageStep (st : StageState) : StageOp → StageState
  | .select files => handleFileSelect st files
  | .remove fileId => removeFile st fileId

/-- The stage reached by a sequence of interactions from the empty stage. -/
def runStageOps (ops : List StageOp) : StageState :=
  ops.foldl stageStep { attached := [], live := [], fresh := 0 }

/-- The preview resources owned by a list of staged files. -/
def previews (l : List StagedFile) : List Nat := l.filterMap (fun f => f.preview)

/-- Invariant of the attachment stage: the live-resource ledger is exactly
the list of previews of the staged entries, every entry's preview token is
its own id exactly when its type is an image type, ids are below the fresh
counter, and ids are pairwise distinct. -/
def StageInv (st : StageState) : Prop :=
  st.live = previews st.attached ∧
  (∀ f ∈ st.attached,
    f.id < st.fresh ∧
      f.preview = (if isImageType f.type then some f.id else none)) ∧
  st.attached.Pairwise (fun a b => a.id ≠ b.id)

theorem previews_append (l₁ l₂ : List StagedFile) :
    previews (l₁ ++ l₂) = previews l₁ ++ previews l₂ :=
  List.filterMap_append l₁ l₂ _

theorem stageOne_stageInv {st : StageState} (f : SelectedFile)
    (h : StageInv st) : StageInv (stageOne st f) := by
  obtain ⟨hlive, hpt, hpw⟩ := h
  refine ⟨?_, ?_, ?_⟩
  · by_cases himg : isImageType f.type <;>
      simp [stageOne, previews_append, himg, hlive, previews,
        List.filterMap_cons]
  · intro g hg
    simp only [stageOne, List.mem_append, List.mem_singleton] at hg
    rcases hg with hg | hg
    · exact ⟨Nat.lt_succ_of_lt (hpt g hg).1, (hpt g hg).2⟩
    · subst hg
      exact ⟨Nat.lt_succ_self _, by by_cases himg : isImageType f.type <;>
        simp [himg]⟩
  · simp only [stageOne]
    rw [List.pairwise_append]
    refine ⟨hpw, by simp, ?_⟩
    intro a ha b hb
    simp only [List.mem_singleton] at hb
    subst hb
    exact Nat.ne_of_lt (hpt a ha).1

theorem foldl_stageOne_stageInv (files : List SelectedFile) {st : StageState}
    (h : StageInv st) : StageInv (files.foldl stageOne st) := by
  induction files generalizing st with
  | nil => exact h
  | cons f t ih => exact ih (stageOne_stageInv f h)

theorem handleFileSelect_stageInv {st : StageState} (files : List SelectedFile)
    (h : StageInv st) : StageInv (handleFileSelect st files) :=
  foldl_stageOne_stageInv _ h

theorem removeFile_stageInv {st : StageState} (fileId : Nat)
    (h : StageInv st) : StageInv (removeFile st fileId) := by
  obtain ⟨hlive, hpt, hpw⟩ := h
  cases hfind : st.attached.find? (fun f => f.id == fileId) with
  | none =>
      have hall := List.find?_eq_none.mp hfind
      have hfilter :
          st.attached.filter (fun f => f.id != fileId) = st.attached := by
        refine List.filter_eq_self.mpr fun a ha => ?_
        simpa [bne_iff_ne] using hall a ha
      simp only [removeFile, hfind, hfilter]
      exact ⟨hlive, hpt, hpw⟩
  | some g =>
      have hg_mem : g ∈ st.attached := List.mem_of_find?_eq_some hfind
      have hg_id : g.id = fileId := by simpa using List.find?_some hfind
      obtain ⟨l₁, l₂, hsplit⟩ := List.append_of_mem hg_mem
      have hpw' := hpw
      rw [hsplit, List.pairwise_append, List.pairwise_cons] at hpw'
      obtain ⟨hpw₁, ⟨hg₂, hpw₂⟩, hcross⟩ := hpw'
      have h₁ : ∀ a ∈ l₁, a.id ≠ fileId := by
        intro a ha
        have := hcross a ha g (by simp)
        rwa [hg_id] at this
      have h₂ : ∀ b ∈ l₂, b.id ≠ fileId := by
        intro b hb
        have := (hg₂ b hb).symm
        rwa [hg_id] at this
      have hfilter :
          st.attached.filter (fun f => f.id != fileId) = l₁ ++ l₂ := by
        rw [hsplit, List.filter_append, List.filter_cons]
        have hgfalse : (g.id != fileId) = false := by simp [hg_id]
        rw [hgfalse]
        simp only [Bool.false_eq_true, if_false]
        rw [List.filter_eq_self.mpr fun a ha => by simp [h₁ a ha],
          List.filter_eq_self.mpr fun b hb => by simp [h₂ b hb]]
      have hlive' :
          (match g.preview with
            | some u => st.live.erase u
            | none => st.live) = previews (l₁ ++ l₂) := by
        have hgp := (hpt g hg_mem).2
        by_cases himg : isImageType g.type
        · rw [hgp]
          simp only [himg, if_true]
          have hnotmem : g.id ∉ previews l₁ := by
            intro hmem
            rw [previews, List.mem_filterMap] at hmem
            obtain ⟨a, ha, hap⟩ := hmem
            have hamem : a ∈ st.attached := by rw [hsplit]; simp [ha]
            have hap' := (hpt a hamem).2
            rw [hap'] at hap
            by_cases haimg : isImageType a.type
            · rw [if_pos haimg] at hap
              have haid : a.id = g.id := by simpa using hap
              exact hcross a ha g (by simp) haid
            · rw [if_neg haimg] at hap
              exact Option.noConfusion hap
          have hgl : previews (g :: l₂) = g.id :: previews l₂ := by
            simp [previews, List.filterMap_cons, hgp, himg]
          rw [hlive, hsplit, previews_append, hgl,
            List.erase_append_right _ hnotmem, List.erase_cons_head,
            previews_append]
        · rw [hgp]
          simp only [himg, Bool.false_eq_true, if_false]
          have hgl : previews (g :: l₂) = previews l₂ := by
            simp [previews, List.filterMap_cons, hgp, himg]
          rw [hlive, hsplit, previews_append, hgl, previews_append]
      simp only [removeFile, hfind]
      refine ⟨?_, ?_, ?_⟩
      · rw [hfilter]
        exact hlive'
      · intro f hf
        have hf' : f ∈ st.attached := (List.mem_filter.mp hf).1
        exact hpt f hf'
      · rw [hfilter]
        refine List.Pairwise.sublist ?_ hpw
        rw [hsplit]
        exact (List.sublist_cons_self g l₂).append_left l₁

theorem stageStep_stageInv {st : StageState} (op : StageOp)
    (h : StageInv st) : StageInv (stageStep st op) := by
  cases op with
  | select files => exact handleFileSelect_stageInv files h
  | remove fileId => exact removeFile_stageInv fileId h

theorem runStageOps_stageInv (ops : List StageOp) :
    StageInv (runStageOps ops) := by
  suffices h : ∀ st, StageInv st → StageInv (ops.foldl stageStep st) by
    exact h _ ⟨rfl, by simp, by simp⟩
  induction ops with
  | nil => exact fun st h => h
  | cons op t ih => exact fun st h => ih _ (stageStep_stageInv op h)

theorem previews_length (l : List StagedFile)
    (h : ∀ f ∈ l,
      f.preview = (if isImageType f.type then some f.id else none)) :
    (previews l).length = (l.filter fun f => isImageType f.type).length := by
  induction l with
  | nil => rfl
  | cons a t ih =>
      have ha := h a (List.mem_cons_self a t)
      have ht := ih fun f hf => h f (List.mem_cons_of_mem a hf)
      by_cases himg : isImageType a.type <;>
        simp [previews, List.filterMap_cons, ha, himg, List.filter_cons,
          previews] at ht ⊢ <;> omega

/-- C9: after every finite sequence of stage and unstage interactions
starting from the empty stage, the number of live preview resources equals
the number of currently staged attachments whose media type indicates an
image: `handleFileSelect` allocates a preview resource exactly for
image-typed files (never for other types, and never for a file rejected as
oversize, which is filtered out before staging), and `removeFile` of a
staged entry releases its preview resource exactly once. -/
theorem live_previews_eq_staged_images (ops : List StageOp) :
    (runStageOps ops).live.length =
      ((runStageOps ops).attached.filter fun f =>
        isImageType f.type).length := by
  obtain ⟨hlive, hpt, -⟩ := runStageOps_stageInv ops
  rw [hlive, previews_length _ fun f hf => (hpt f hf).2]

theorem jsSlice_length (s : String) (n : Nat) : (jsSlice s n).length ≤ n := by
  show (s.data.take n).length ≤ n
  rw [List.length_take]
  exact Nat.min_le_left _ _

theorem string_eq_empty_of_data (s : String) (h : s.data = []) : s = "" := by
  cases s with
  | mk d => subst h; rfl

theorem jsSlice_eq_empty_iff (s : String) (n : Nat) (hn : 0 < n) :
    jsSlice s n = "" ↔ s = "" := by
  constructor
  · intro h
    have hd : s.data.take n = [] := congrArg String.data h
    rcases List.take_eq_nil_iff.mp hd with h0 | h0
    · omega
    · exact string_eq_empty_of_data s h0
  · intro h
    subst h
    apply string_eq_empty_of_data
    show List.take n ([] : List Char) = []
    exact List.take_nil

theorem deriveTitle_length (content : String) (n : Nat)
    (h : jsTrim content ≠ "" ∨ (toString n).length ≤ 32) :
    (deriveTitle content n).length ≤ 50 := by
  simp only [deriveTitle]
  by_cases he : jsSlice (jsTrim content) 50 = ""
  · rw [if_pos he]
    have hn : (toString n).length ≤ 32 := by
      rcases h with h | h
      · exact absurd ((jsSlice_eq_empty_iff _ 50 (by norm_num)).mp he) h
      · exact h
    have h1 : ("Chat with " : String).length = 10 := by decide
    have h2 : (" file(s)" : String).length = 8 := by decide
    rw [String.length_append, String.length_append, h1, h2]
    omega
  · rw [if_neg he]
    exact jsSlice_length _ _

/-- C1, evaluated at the failing input: with content "hello" and no
attachments the precondition holds, yet the user message appended by
`sendMessage` has content "Sent 0 file(s)", not the trimmed content
"hello" — in the source, `content.trim() || files.length > 0 ? X : ''`
parses with JS precedence as `(a || b) ? X : ''`, so the synthesized
file-count description is used unconditionally whenever the precondition
holds. -/
theorem sendMessage_user_content_at_hello :
    jsTrim "hello" = "hello" ∧
    ((sendMessageOk 3 "hello" []
        { response := some "ok", message := none, conversation_id := none }
        { conversations := [], currentConversation := none, messages := [],
          isLoading := false, sidebarOpen := true }).messages.map
      Message.content = ["Sent 0 file(s)", "ok"]) ∧
    ("Sent 0 file(s)" : String) ≠ "hello" := by decide

/-- C2 counterexample: a send starts while no conversation is current;
during the network suspension `createNewConversation` runs, so the
conversation with id "5" is current at response arrival; the settle path
nevertheless consults the captured send-time values (`cc0 = none`,
`ml0 = 0`) and creates and selects a second conversation "c1" — so the
reconciliation does not use the conversation current at response
arrival. -/
theorem sendSettle_creates_despite_live_current :
    ((createNewConversation 5 (sendStartCore 3 "hi" []
        { conversations := [], currentConversation := none, messages := [],
          isLoading := false, sidebarOpen := true })).1.currentConversation =
      some { id := "5", title := "New Chat", createdAt := 5 }) ∧
    ((sendSettle 9 none 0 "hi" []
        { response := some "ok", message := none, conversation_id := some "c1" }
        (createNewConversation 5 (sendStartCore 3 "hi" []
          { conversations := [], currentConversation := none, messages := [],
            isLoading := false, sidebarOpen := true })).1).currentConversation
      = some { id := "c1", title := "hi", createdAt := 9 }) ∧
    ((sendSettle 9 none 0 "hi" []
        { response := some "ok", message := none, conversation_id := some "c1" }
        (createNewConversation 5 (sendStartCore 3 "hi" []
          { conversations := [], currentConversation := none, messages := [],
            isLoading := false, sidebarOpen := true })).1).conversations.length
      = 2) := by decide

/-- C2 (amended): the reconciliation decisions of the settle path are
functions of the conversation captured at send-invocation time (`cc0`, the
closure value) alone: with `cc0 = none` a conversation is always created
and made current, whatever is current at response arrival; with
`cc0 = some _` no conversation is ever created. Only the functional title
write inside the title branch applies to the arrival-time current
conversation. -/
theorem sendSettle_decisions_use_captured (now : Nat) (content : String)
    (files : List StagedFile) (resp : ServerResponse) (st : AppState) :
    ((sendSettle now none 0 content files resp st).conversations.length =
        st.conversations.length + 1 ∧
      (sendSettle now none 0 content files resp st).currentConversation =
        some { id := jsOr resp.conversation_id (toString now),
               title := deriveTitle content files.length,
               createdAt := now }) ∧
    ∀ (c0 : Conversation) (ml0 : Nat),
      (sendSettle now (some c0) ml0 content files resp st).conversations.length
        = st.conversations.length := by
  refine ⟨⟨?_, ?_⟩, ?_⟩
  · simp [sendSettle]
  · simp [sendSettle]
  · intro c0 ml0
    by_cases hg : c0.title = "New Chat" ∧ ml0 = 0 <;> simp [sendSettle, hg]

/-- C3 counterexample: `createNewConversation` does insert the new
conversation (id "0") and make it current, but its body ends without a
`return` statement, so the call evaluates to `undefined` (`none`) rather
than returning the identity of the new conversation. -/
theorem createNewConversation_returns_none :
    ((createNewConversation 0
        { conversations := [], currentConversation := none, messages := [],
          isLoading := false, sidebarOpen := true }).1.currentConversation =
      some { id := "0", title := "New Chat", createdAt := 0 }) ∧
    ((createNewConversation 0
        { conversations := [], currentConversation := none, messages := [],
          isLoading := false, sidebarOpen := true }).2 = none) ∧
    (none : Option String) ≠ some "0" := by decide

/-- C3 (amended): `createNewConversation` inserts a conversation titled
"New Chat" with the current timestamp at the front of the ordering, makes
it current and clears the message log, but returns no value (the identity
is observable only as the new current conversation); two calls in a row
with distinct timestamp strings yield two distinct conversations in
most-recent-first order, the second one current, and an empty log. -/
theorem createNewConversation_twice (now₁ now₂ : Nat) (st : AppState)
    (h : toString now₁ ≠ toString now₂) :
    ((createNewConversation now₁ st).1.conversations =
      { id := toString now₁, title := "New Chat", createdAt := now₁ } ::
        st.conversations) ∧
    ((createNewConversation now₁ st).1.currentConversation =
      some { id := toString now₁, title := "New Chat", createdAt := now₁ }) ∧
    ((createNewConversation now₁ st).1.messages = []) ∧
    ((createNewConversation now₁ st).2 = none) ∧
    ((createNewConversation now₂ (createNewConversation now₁ st).1).1.conversations
      = { id := toString now₂, title := "New Chat", createdAt := now₂ } ::
        { id := toString now₁, title := "New Chat", createdAt := now₁ } ::
          st.conversations) ∧
    ((createNewConversation now₂ (createNewConversation now₁ st).1).1.currentConversation
      = some { id := toString now₂, title := "New Chat", createdAt := now₂ }) ∧
    ((createNewConversation now₂ (createNewConversation now₁ st).1).1.messages
      = []) ∧
    (toString now₂ ≠ toString now₁) := by
  exact ⟨rfl, rfl, rfl, rfl, rfl, rfl, rfl, Ne.symm h⟩

/-- C3 witness: the amended theorem applied at timestamps 0 and 1 from the
empty initial state. -/
theorem createNewConversation_twice_witness :
    ((createNewConversation 0
        { conversations := [], currentConversation := none, messages := [],
          isLoading := false, sidebarOpen := true }).1.conversations =
      [{ id := "0", title := "New Chat", createdAt := 0 }]) ∧
    ((createNewConversation 0
        { conversations := [], currentConversation := none, messages := [],
          isLoading := false, sidebarOpen := true }).1.currentConversation =
      some { id := "0", title := "New Chat", createdAt := 0 }) ∧
    ((createNewConversation 0
        { conversations := [], currentConversation := none, messages := [],
          isLoading := false, sidebarOpen := true }).1.messages = []) ∧
    ((createNewConversation 0
        { conversations := [], currentConversation := none, messages := [],
          isLoading := false, sidebarOpen := true }).2 = none) ∧
    ((createNewConversation 1 (createNewConversation 0
        { conversations := [], currentConversation := none, messages := [],
          isLoading := false, sidebarOpen := true }).1).1.conversations =
      [{ id := "1", title := "New Chat", createdAt := 1 },
        { id := "0", title := "New Chat", createdAt := 0 }]) ∧
    ((createNewConversation 1 (createNewConversation 0
        { conversations := [], currentConversation := none, messages := [],
          isLoading := false, sidebarOpen := true }).1).1.currentConversation =
      some { id := "1", title := "New Chat", createdAt := 1 }) ∧
    ((createNewConversation 1 (createNewConversation 0
        { conversations := [], currentConversation := none, messages := [],
          isLoading := false, sidebarOpen := true }).1).1.messages = []) ∧
    (("1" : String) ≠ "0") :=
  createNewConversation_twice 0 1
    { conversations := [], currentConversation := none, messages := [],
      isLoading := false, sidebarOpen := true } (by decide)

/-- C4 counterexample: `renameConversation` writes the trimmed new title
verbatim, without any 50-character truncation, so renaming with a
51-character title leaves a conversation whose title has 51 characters. -/
theorem renameConversation_title_over_50 :
    ((renameConversation "1"
        "aaaaaaaaaaaaaaaaaaaaaaaaaaaaaaaaaaaaaaaaaaaaaaaaaaa"
        { conversations :=
            [{ id := "1", title := "New Chat", createdAt := 0 }],
          currentConversation :=
            some { id := "1", title := "New Chat", createdAt := 0 },
          messages := [], isLoading := false,
          sidebarOpen := true }).conversations.map
      (fun c => c.title.length) = [51]) ∧ ¬ (51 ≤ 50) := by decide

/-- All stored conversation titles, and the title of the current-conversation
copy, are at most 50 characters long. -/
def TitlesBounded (st : AppState) : Prop :=
  (∀ c ∈ st.conversations, c.title.length ≤ 50) ∧
  (∀ c, st.currentConversation = some c → c.title.length ≤ 50)

theorem sendSettle_titlesBounded (now : Nat) (cc0 : Option Conversation)
    (ml0 : Nat) (content : String) (files : List StagedFile)
    (resp : ServerResponse) (st : AppState) (hst : TitlesBounded st)
    (hd : (deriveTitle content files.length).length ≤ 50) :
    TitlesBounded (sendSettle now cc0 ml0 content files resp st) := by
  obtain ⟨hconvs, hcur⟩ := hst
  cases cc0 with
  | none =>
      refine ⟨?_, ?_⟩
      · intro c hc
        simp only [sendSettle, List.mem_cons] at hc
        rcases hc with hc | hc
        · subst hc; exact hd
        · exact hconvs c hc
      · intro c hc
        simp only [sendSettle, Option.some.injEq] at hc
        subst hc; exact hd
  | some c0 =>
      by_cases hg : c0.title = "New Chat" ∧ ml0 = 0
      · refine ⟨?_, ?_⟩
        · intro c hc
          simp only [sendSettle, if_pos hg, List.mem_map] at hc
          obtain ⟨a, ha, hac⟩ := hc
          by_cases hid : (a.id == c0.id) = true
          · rw [if_pos hid] at hac
            subst hac; exact hd
          · rw [if_neg hid] at hac
            subst hac; exact hconvs a ha
        · intro c hc
          simp only [sendSettle, if_pos hg, updateCurrentTitle] at hc
          cases hcc : st.currentConversation with
          | some c1 =>
              rw [hcc] at hc
              simp only [Option.some.injEq] at hc
              subst hc; exact hd
          | none =>
              rw [hcc] at hc
              simp only [Option.some.injEq] at hc
              subst hc; exact hd
      · refine ⟨?_, ?_⟩
        · intro c hc
          simp only [sendSettle, if_neg hg] at hc
          exact hconvs c hc
        · intro c hc
          simp only [sendSettle, if_neg hg] at hc
          exact hcur c hc

/-- C4 (amended): every conversation title is at most 50 characters after
`createNewConversation`, and after the title derivation performed by a
successful send whenever the trimmed content is non-empty or the decimal
numeral of the attachment count has at most 32 digits (the fallback title
"Chat with N file(s)" carries 18 further characters); `renameConversation`
however writes the trimmed new title verbatim, so after a rename the bound
is kept exactly when the trimmed new title is at most 50 characters — the
chat-header rename input enforces this with `maxLength={50}`, but the
operation itself does not. -/
theorem title_bound_amended :
    (∀ (now : Nat) (st : AppState), TitlesBounded st →
      TitlesBounded (createNewConversation now st).1) ∧
    (∀ (conversationId newTitle : String) (st : AppState), TitlesBounded st →
      (jsTrim newTitle).length ≤ 50 →
      TitlesBounded (renameConversation conversationId newTitle st)) ∧
    (∀ (now : Nat) (content : String) (files : List StagedFile)
      (resp : ServerResponse) (st : AppState), TitlesBounded st →
      (jsTrim content ≠ "" ∨ (toString files.length).length ≤ 32) →
      TitlesBounded (sendMessageOk now content files resp st)) := by
  refine ⟨?_, ?_, ?_⟩
  · intro now st hst
    obtain ⟨hconvs, hcur⟩ := hst
    refine ⟨?_, ?_⟩
    · intro c hc
      simp only [createNewConversation, List.mem_cons] at hc
      rcases hc with hc | hc
      · subst hc
        exact (by decide : ("New Chat" : String).length ≤ 50)
      · exact hconvs c hc
    · intro c hc
      simp only [createNewConversation, Option.some.injEq] at hc
      subst hc
      exact (by decide : ("New Chat" : String).length ≤ 50)
  · intro conversationId newTitle st hst h50
    obtain ⟨hconvs, hcur⟩ := hst
    by_cases he : jsTrim newTitle = ""
    · simpa [renameConversation, he] using ⟨hconvs, hcur⟩
    · refine ⟨?_, ?_⟩
      · intro c hc
        simp only [renameConversation, if_neg he, List.mem_map] at hc
        obtain ⟨a, ha, hac⟩ := hc
        by_cases hid : (a.id == conversationId) = true
        · rw [if_pos hid] at hac
          subst hac; exact h50
        · rw [if_neg hid] at hac
          subst hac; exact hconvs a ha
      · intro c hc
        simp only [renameConversation, if_neg he] at hc
        cases hcc : st.currentConversation with
        | some c1 =>
            rw [hcc] at hc
            dsimp only at hc
            by_cases hid : (c1.id == conversationId) = true
            · rw [if_pos hid] at hc
              simp only [Option.some.injEq] at hc
              subst hc; exact h50
            · rw [if_neg hid] at hc
              simp only [Option.some.injEq] at hc
              subst hc; exact hcur c1 hcc
        | none => rw [hcc] at hc; exact Option.noConfusion hc
  · intro now content files resp st hst h
    by_cases hpre : jsTrim content = "" ∧ files.length = 0
    · simpa [sendMessageOk, hpre] using hst
    · simp only [sendMessageOk, if_neg hpre]
      exact sendSettle_titlesBounded _ _ _ _ _ _ _ ⟨hst.1, hst.2⟩
        (deriveTitle_length _ _ h)

/-- C4 witness: the amended theorem applied, in turn, to a creation from the
empty state, to a rename with the short title "Hello", and to a send with
content "hi" and no attachments. -/
theorem title_bound_amended_witness :
    TitlesBounded (createNewConversation 0
      { conversations := [], currentConversation := none, messages := [],
        isLoading := false, sidebarOpen := true }).1 ∧
    TitlesBounded (renameConversation "1" "Hello"
      { conversations := [{ id := "1", title := "New Chat", createdAt := 0 }],
        currentConversation := none, messages := [], isLoading := false,
        sidebarOpen := true }) ∧
    TitlesBounded (sendMessageOk 2 "hi" []
      { response := none, message := none, conversation_id := none }
      { conversations := [], currentConversation := none, messages := [],
        isLoading := false, sidebarOpen := true }) := by
  have hempty : TitlesBounded
      { conversations := [], currentConversation := none, messages := [],
        isLoading := false, sidebarOpen := true } := by
    refine ⟨?_, ?_⟩
    · intro c hc; simp at hc
    · intro c hc; simp at hc
  have hone : TitlesBounded
      { conversations := [{ id := "1", title := "New Chat", createdAt := 0 }],
        currentConversation := none, messages := [], isLoading := false,
        sidebarOpen := true } := by
    refine ⟨?_, ?_⟩
    · intro c hc
      simp only [List.mem_singleton] at hc
      subst hc; decide
    · intro c hc; simp at hc
  exact ⟨title_bound_amended.1 0 _ hempty,
    title_bound_amended.2.1 "1" "Hello" _ hone (by decide),
    title_bound_amended.2.2 2 "hi" [] _ _ hempty (Or.inl (by decide))⟩

/-- C5: on a successful uninterrupted send whose pre-send current
conversation carries the default title "New Chat" with an empty message log,
the current conversation (and every store entry with its id) is retitled
with the derivation result, which equals the first 50 characters of the
trimmed content when that is non-empty, and "Chat with N file(s)" (N the
attachment count) when the trimmed content is empty. -/
theorem sendMessage_title_assignment (now : Nat) (content : String)
    (files : List StagedFile) (resp : ServerResponse) (st : AppState)
    (c0 : Conversation) (hc : st.currentConversation = some c0)
    (ht : c0.title = "New Chat") (hm : st.messages = [])
    (hpre : ¬(jsTrim content = "" ∧ files.length = 0)) :
    ((sendMessageOk now content files resp st).currentConversation =
      some { c0 with title := deriveTitle content files.length }) ∧
    ((sendMessageOk now content files resp st).conversations =
      st.conversations.map fun c =>
        if c.id == c0.id then
          { c with title := deriveTitle content files.length }
        else c) ∧
    (jsTrim content ≠ "" →
      deriveTitle content files.length = jsSlice (jsTrim content) 50) ∧
    (jsTrim content = "" →
      deriveTitle content files.length =
        "Chat with " ++ toString files.length ++ " file(s)") := by
  refine ⟨?_, ?_, ?_, ?_⟩
  · simp only [sendMessageOk, if_neg hpre]
    simp [sendStartCore, sendSettle, hc, hm, ht, updateCurrentTitle]
  · simp only [sendMessageOk, if_neg hpre]
    simp [sendStartCore, sendSettle, hc, hm, ht, updateCurrentTitle]
  · intro h
    simp only [deriveTitle]
    rw [if_neg fun he => h ((jsSlice_eq_empty_iff _ 50 (by norm_num)).mp he)]
  · intro h
    simp only [deriveTitle]
    rw [if_pos ((jsSlice_eq_empty_iff _ 50 (by norm_num)).mpr h)]

/-- C5 witness (Scenario B): sending empty text with two staged non-image
files while a "New Chat" conversation with no prior messages is current
retitles it to "Chat with 2 file(s)". -/
theorem sendMessage_title_assignment_witness :
    (sendMessageOk 9 ""
        [{ id := 1, name := "a.pdf", size := 5, type := "application/pdf",
           preview := none },
         { id := 2, name := "b.txt", size := 3, type := "text/plain",
           preview := none }]
        { response := some "hi", message := none, conversation_id := none }
        { conversations :=
            [{ id := "1", title := "New Chat", createdAt := 0 }],
          currentConversation :=
            some { id := "1", title := "New Chat", createdAt := 0 },
          messages := [], isLoading := false,
          sidebarOpen := true }).currentConversation =
      some { id := "1", title := "Chat with 2 file(s)", createdAt := 0 } := by
  have h := (sendMessage_title_assignment 9 ""
    [{ id := 1, name := "a.pdf", size := 5, type := "application/pdf",
       preview := none },
     { id := 2, name := "b.txt", size := 3, type := "text/plain",
       preview := none }]
    { response := some "hi", message := none, conversation_id := none }
    { conversations := [{ id := "1", title := "New Chat", createdAt := 0 }],
      currentConversation :=
        some { id := "1", title := "New Chat", createdAt := 0 },
      messages := [], isLoading := false, sidebarOpen := true }
    { id := "1", title := "New Chat", createdAt := 0 }
    rfl rfl rfl (by decide)).1
  exact h

/-- C6: on a successful uninterrupted send issued while no conversation is
current, a conversation is created with the server-returned id (falling back
to a locally generated one when the field is absent), titled by the shared
derivation rule, prepended to the ordering and made current; the log gains
the user message followed by the assistant message and the loading flag ends
false. -/
theorem sendMessage_lazy_conversation_creation (now : Nat) (content : String)
    (files : List StagedFile) (resp : ServerResponse) (st : AppState)
    (hc : st.currentConversation = none)
    (hpre : ¬(jsTrim content = "" ∧ files.length = 0)) :
    ((sendMessageOk now content files resp st).currentConversation =
      some { id := jsOr resp.conversation_id (toString now),
             title := deriveTitle content files.length, createdAt := now }) ∧
    ((sendMessageOk now content files resp st).conversations =
      { id := jsOr resp.conversation_id (toString now),
        title := deriveTitle content files.length, createdAt := now } ::
        st.conversations) ∧
    ((sendMessageOk now content files resp st).messages =
      st.messages ++
        [{ id := toString now, role := "user",
           content := userMessageContent content files, timestamp := now,
           files := files.map toSummary, error := false },
         { id := toString (now + 1), role := "assistant",
           content := jsOr resp.response (jsOr resp.message
             "No response received"),
           timestamp := now, files := [], error := false }]) ∧
    ((sendMessageOk now content files resp st).isLoading = false) ∧
    (∀ cid, resp.conversation_id = some cid → cid ≠ "" →
      jsOr resp.conversation_id (toString now) = cid) ∧
    (resp.conversation_id = none →
      jsOr resp.conversation_id (toString now) = toString now) := by
  refine ⟨?_, ?_, ?_, ?_, ?_, ?_⟩
  · simp only [sendMessageOk, if_neg hpre]
    simp [sendStartCore, sendSettle, hc]
  · simp only [sendMessageOk, if_neg hpre]
    simp [sendStartCore, sendSettle, hc]
  · simp only [sendMessageOk, if_neg hpre]
    simp [sendStartCore, sendSettle, hc]
  · simp only [sendMessageOk, if_neg hpre]
    simp [sendStartCore, sendSettle, hc]
  · intro cid hcid hne
    simp [jsOr, hcid, hne]
  · intro hcid
    simp [jsOr, hcid]

/-- C6 witness (the shape of Scenario A): a send of "hello" with no current
conversation and response `{response: "hi", conversation_id: "c1"}` ends
with a single conversation of id "c1" current and the two messages user
then assistant. -/
theorem sendMessage_lazy_conversation_creation_witness :
    ((sendMessageOk 7 "hello" []
        { response := some "hi", message := none, conversation_id := some "c1" }
        { conversations := [], currentConversation := none, messages := [],
          isLoading := false, sidebarOpen := true }).currentConversation =
      some { id := "c1", title := "hello", createdAt := 7 }) ∧
    ((sendMessageOk 7 "hello" []
        { response := some "hi", message := none, conversation_id := some "c1" }
        { conversations := [], currentConversation := none, messages := [],
          isLoading := false, sidebarOpen := true }).conversations =
      [{ id := "c1", title := "hello", createdAt := 7 }]) ∧
    ((sendMessageOk 7 "hello" []
        { response := some "hi", message := none, conversation_id := some "c1" }
        { conversations := [], currentConversation := none, messages := [],
          isLoading := false, sidebarOpen := true }).messages.map
      Message.role = ["user", "assistant"]) := by
  have h := sendMessage_lazy_conversation_creation 7 "hello" []
    { response := some "hi", message := none, conversation_id := some "c1" }
    { conversations := [], currentConversation := none, messages := [],
      isLoading := false, sidebarOpen := true } rfl (by decide)
  refine ⟨?_, ?_, ?_⟩
  · rw [h.1]; decide
  · rw [h.2.1]; decide
  · rw [h.2.2.1]; decide

/-- C7: a failing uninterrupted send changes the state only by appending the
optimistic user message and then exactly one assistant message carrying the
fixed apology text with `error = true`, and by ending with the loading flag
false; the conversation list and the current conversation (identity and
title) are untouched. -/
theorem sendMessage_failure_path (now : Nat) (content : String)
    (files : List StagedFile) (st : AppState)
    (hpre : ¬(jsTrim content = "" ∧ files.length = 0)) :
    sendMessageErr now content files st =
      { st with
        messages := st.messages ++
          [{ id := toString now, role := "user",
             content := userMessageContent content files, timestamp := now,
             files := files.map toSummary, error := false },
           { id := toString (now + 1), role := "assistant",
             content := "Sorry, I encountered an error. Please try again.",
             timestamp := now, files := [], error := true }],
        isLoading := false } := by
  simp only [sendMessageErr, if_neg hpre]
  simp [sendStartCore, sendFail]

/-- C7 witness (Scenario C): a failing send of "x" appends the user message
and the error-flagged apology, leaving the conversation and its title
unchanged and the loading flag false. -/
theorem sendMessage_failure_path_witness :
    sendMessageErr 4 "x" []
        { conversations := [{ id := "1", title := "T", createdAt := 0 }],
          currentConversation :=
            some { id := "1", title := "T", createdAt := 0 },
          messages := [], isLoading := false, sidebarOpen := true } =
      { conversations := [{ id := "1", title := "T", createdAt := 0 }],
        currentConversation :=
          some { id := "1", title := "T", createdAt := 0 },
        messages :=
          [{ id := "4", role := "user", content := "Sent 0 file(s)",
             timestamp := 4, files := [], error := false },
           { id := "5", role := "assistant",
             content := "Sorry, I encountered an error. Please try again.",
             timestamp := 4, files := [], error := true }],
        isLoading := false, sidebarOpen := true } := by
  have h := sendMessage_failure_path 4 "x" []
    { conversations := [{ id := "1", title := "T", createdAt := 0 }],
      currentConversation := some { id := "1", title := "T", createdAt := 0 },
      messages := [], isLoading := false, sidebarOpen := true } (by decide)
  rw [h]; decide

/-- C8 counterexample: renaming conversation "1" with the string "a ",
exactly equal to its current title, mutates the state, because the
operation stores the trimmed title "a"; rename-to-the-same-title is
therefore not a no-op when the existing title differs from its own trim
(such titles are reachable: a derived title cut at 50 characters may end in
a space). -/
theorem renameConversation_same_title_mutates :
    renameConversation "1" "a "
        { conversations := [{ id := "1", title := "a ", createdAt := 0 }],
          currentConversation :=
            some { id := "1", title := "a ", createdAt := 0 },
          messages := [], isLoading := false, sidebarOpen := true } ≠
      { conversations := [{ id := "1", title := "a ", createdAt := 0 }],
        currentConversation :=
          some { id := "1", title := "a ", createdAt := 0 },
        messages := [], isLoading := false, sidebarOpen := true } := by
  decide

/-- C8 (amended): the invalid-argument operations leave the state unchanged
in these cases: rename with a trimmed-empty title; rename when every stored
conversation with the target id (and the current-conversation copy, if it
has that id) already carries exactly the trimmed new title — renaming to a
title equal to the existing one but different from its own trim does
mutate; delete of an id no conversation has; unstage of an id no staged
file has; and a send with trimmed-empty content and no attachments. -/
theorem noop_operations_amended (st : AppState)
    (conversationId newTitle content : String) (files : List StagedFile)
    (resp : ServerResponse) (sst : StageState) (rid now : Nat) :
    (jsTrim newTitle = "" →
      renameConversation conversationId newTitle st = st) ∧
    ((∀ c ∈ st.conversations, c.id = conversationId →
        c.title = jsTrim newTitle) →
      (∀ c, st.currentConversation = some c → c.id = conversationId →
        c.title = jsTrim newTitle) →
      renameConversation conversationId newTitle st = st) ∧
    ((∀ c ∈ st.conversations, c.id ≠ conversationId) →
      (∀ c, st.currentConversation = some c → c.id ≠ conversationId) →
      deleteConversation conversationId st = st) ∧
    ((∀ f ∈ sst.attached, f.id ≠ rid) → removeFile sst rid = sst) ∧
    (jsTrim content = "" → files.length = 0 →
      sendMessageOk now content files resp st = st ∧
      sendMessageErr now content files st = st) := by
  refine ⟨?_, ?_, ?_, ?_, ?_⟩
  · intro he
    simp [renameConversation, he]
  · intro hconv hcur
    by_cases he : jsTrim newTitle = ""
    · simp [renameConversation, he]
    · simp only [renameConversation, if_neg he]
      have hmap : (st.conversations.map fun c =>
          if c.id == conversationId then { c with title := jsTrim newTitle }
          else c) = st.conversations := by
        conv_rhs => rw [← List.map_id st.conversations]
        apply List.map_congr_left
        intro a ha
        by_cases hid : (a.id == conversationId) = true
        · rw [if_pos hid]
          have hta : a.title = jsTrim newTitle :=
            hconv a ha (by simpa using hid)
          cases a
          simp_all
        · rw [if_neg hid]
          rfl
      have hcc : (match st.currentConversation with
          | some c =>
              if c.id == conversationId then
                some { c with title := jsTrim newTitle }
              else some c
          | none => none) = st.currentConversation := by
        cases hcase : st.currentConversation with
        | none => rfl
        | some c =>
            dsimp only
            by_cases hid : (c.id == conversationId) = true
            · rw [if_pos hid]
              have htc : c.title = jsTrim newTitle :=
                hcur c hcase (by simpa using hid)
              cases c
              simp_all
            · rw [if_neg hid]
      rw [hmap, hcc]
  · intro hconv hcur
    have hfilter : st.conversations.filter (fun c => c.id != conversationId)
        = st.conversations :=
      List.filter_eq_self.mpr fun a ha => by simp [hconv a ha]
    cases hcase : st.currentConversation with
    | none =>
        simp only [deleteConversation, hcase, hfilter]
        rw [← hcase]
    | some c =>
        have hid : (c.id == conversationId) = false := by
          simp [hcur c hcase]
        simp only [deleteConversation, hcase, hid, Bool.false_eq_true,
          if_false, hfilter]
        rw [← hcase]
  · intro hids
    have hfind : sst.attached.find? (fun f => f.id == rid) = none :=
      List.find?_eq_none.mpr fun f hf => by simp [hids f hf]
    have hfilter : sst.attached.filter (fun f => f.id != rid) = sst.attached :=
      List.filter_eq_self.mpr fun f hf => by simp [hids f hf]
    simp only [removeFile, hfind, hfilter]
  · intro h1 h2
    constructor <;> simp [sendMessageOk, sendMessageErr, h1, h2]

/-- C8 witness: the amended no-op clauses applied at concrete inputs —
rename with a whitespace-only title, rename to the exact (trimmed) existing
title, delete of an unknown id, unstage of an unknown id, and a send with
empty content and no attachments. -/
theorem noop_operations_amended_witness :
    (renameConversation "2" " "
        { conversations := [{ id := "1", title := "T", createdAt := 0 }],
          currentConversation :=
            some { id := "1", title := "T", createdAt := 0 },
          messages := [], isLoading := false, sidebarOpen := true } =
      { conversations := [{ id := "1", title := "T", createdAt := 0 }],
        currentConversation :=
          some { id := "1", title := "T", createdAt := 0 },
        messages := [], isLoading := false, sidebarOpen := true }) ∧
    (renameConversation "1" "T"
        { conversations := [{ id := "1", title := "T", createdAt := 0 }],
          currentConversation :=
            some { id := "1", title := "T", createdAt := 0 },
          messages := [], isLoading := false, sidebarOpen := true } =
      { conversations := [{ id := "1", title := "T", createdAt := 0 }],
        currentConversation :=
          some { id := "1", title := "T", createdAt := 0 },
        messages := [], isLoading := false, sidebarOpen := true }) ∧
    (deleteConversation "9"
        { conversations := [{ id := "1", title := "T", createdAt := 0 }],
          currentConversation :=
            some { id := "1", title := "T", createdAt := 0 },
          messages := [], isLoading := false, sidebarOpen := true } =
      { conversations := [{ id := "1", title := "T", createdAt := 0 }],
        currentConversation :=
          some { id := "1", title := "T", createdAt := 0 },
        messages := [], isLoading := false, sidebarOpen := true }) ∧
    (removeFile { attached := [], live := [], fresh := 0 } 5 =
      { attached := [], live := [], fresh := 0 }) ∧
    (sendMessageOk 0 "" []
        { response := none, message := none, conversation_id := none }
        { conversations := [{ id := "1", title := "T", createdAt := 0 }],
          currentConversation :=
            some { id := "1", title := "T", createdAt := 0 },
          messages := [], isLoading := false, sidebarOpen := true } =
      { conversations := [{ id := "1", title := "T", createdAt := 0 }],
        currentConversation :=
          some { id := "1", title := "T", createdAt := 0 },
        messages := [], isLoading := false, sidebarOpen := true }) ∧
    (sendMessageErr 0 "" []
        { conversations := [{ id := "1", title := "T", createdAt := 0 }],
          currentConversation :=
            some { id := "1", title := "T", createdAt := 0 },
          messages := [], isLoading := false, sidebarOpen := true } =
      { conversations := [{ id := "1", title := "T", createdAt := 0 }],
        currentConversation :=
          some { id := "1", title := "T", createdAt := 0 },
        messages := [], isLoading := false, sidebarOpen := true }) := by
  have h := noop_operations_amended
    { conversations := [{ id := "1", title := "T", createdAt := 0 }],
      currentConversation := some { id := "1", title := "T", createdAt := 0 },
      messages := [], isLoading := false, sidebarOpen := true }
    "2" " " "" []
    { response := none, message := none, conversation_id := none }
    { attached := [], live := [], fresh := 0 } 5 0
  have h' := noop_operations_amended
    { conversations := [{ id := "1", title := "T", createdAt := 0 }],
      currentConversation := some { id := "1", title := "T", createdAt := 0 },
      messages := [], isLoading := false, sidebarOpen := true }
    "9" "T" "" []
    { response := none, message := none, conversation_id := none }
    { attached := [], live := [], fresh := 0 } 5 0
  refine ⟨h.1 (by decide), ?_, ?_, h.2.2.2.1 (by decide), ?_, ?_⟩
  · refine h'.2.1 ?hc ?hcu
    case hc =>
      intro c hc hid
      simp only [List.mem_singleton] at hc
      subst hc
      decide
    case hcu =>
      intro c hc hid
      simp only [Option.some.injEq] at hc
      subst hc
      decide
  · refine h'.2.2.1 (by decide) ?_
    intro c hc
    simp only [Option.some.injEq] at hc
    subst hc
    decide
  · exact (h.2.2.2.2 (by decide) rfl).1
  · exact (h.2.2.2.2 (by decide) rfl).2

/-- C10: selecting any conversation present in the store makes it current
and resets the message log to the empty sequence: no previously displayed
messages survive the switch and no stored messages of the selected
conversation are restored. -/
theorem selectConversation_resets_log (st : AppState)
    (conversationId : String) (c : Conversation)
    (h : st.conversations.find? (fun x => x.id == conversationId) = some c) :
    ((selectConversation conversationId st).currentConversation = some c) ∧
    ((selectConversation conversationId st).messages = []) := by
  simp [selectConversation, h]

/-- C10 witness: selecting conversation "2" while "1" is current and the log
is non-empty makes "2" current with an empty log. -/
theorem selectConversation_resets_log_witness :
    ((selectConversation "2"
        { conversations := [{ id := "1", title := "A", createdAt := 0 },
            { id := "2", title := "B", createdAt := 1 }],
          currentConversation :=
            some { id := "1", title := "A", createdAt := 0 },
          messages :=
            [{ id := "m", role := "user", content := "x", timestamp := 0,
               files := [], error := false }],
          isLoading := false, sidebarOpen := true }).currentConversation =
      some { id := "2", title := "B", createdAt := 1 }) ∧
    ((selectConversation "2"
        { conversations := [{ id := "1", title := "A", createdAt := 0 },
            { id := "2", title := "B", createdAt := 1 }],
          currentConversation :=
            some { id := "1", title := "A", createdAt := 0 },
          messages :=
            [{ id := "m", role := "user", content := "x", timestamp := 0,
               files := [], error := false }],
          isLoading := false, sidebarOpen := true }).messages = []) :=
  selectConversation_resets_log
    { conversations := [{ id := "1", title := "A", createdAt := 0 },
        { id := "2", title := "B", createdAt := 1 }],
      currentConversation := some { id := "1", title := "A", createdAt := 0 },
      messages :=
        [{ id := "m", role := "user", content := "x", timestamp := 0,
           files := [], error := false }],
      isLoading := false, sidebarOpen := true }
    "2" { id := "2", title := "B", createdAt := 1 } (by decide)

end CloudExtelGPT
